import Mathlib

/-!
Shallow embedding of the Guppies betting game, from src/guppies.rs (the
simpler src/guppies_basic.rs is the same betting loop specialised to the
Plain variant with fixed starting money).

Modelling conventions:
* Randomness: thread_rng is an explicit stream of raw draws, Rng := Nat → Nat;
  gen_range(lo..hi) maps one raw draw r to lo + r % (hi - lo).
* User input: the retry loops of read_int_input / get_guess are modelled on
  explicit lists of proposals, returning none when the list runs out (the
  real program would keep prompting forever).
* Machine integers: the i32 balance arithmetic wraps modulo 2^32 (wrap32),
  the wrap-around of a build without overflow checks.  The
  usize subtractions in RainbowGuppies::check_guess get both models: the
  wrapping one (check_guess) and the overflow-checked one (check_guess_dbg),
  where an underflow is a panic, modelled as none.  The generated round
  values are positive (1..=10, 1..=100, palette indices), so they are kept
  as Nat; no subtraction is ever performed on them.
* Panics (the catch-all arms of check_guess, Option::unwrap on a failed
  position lookup, checked-subtraction underflow) are modelled as none, and
  as GameResult.crashed at the loop level.
-/

/-- Stream of raw random draws consumed by the generate calls. -/
abbrev Rng : Type := Nat → Nat

/-- First raw draw of the stream. -/
def Rng.head (r : Rng) : Nat := r 0

/-- Stream left after consuming k draws. -/
def Rng.drop (r : Rng) (k : Nat) : Rng := fun n => r (n + k)

/-- Stream whose draws are read off a list, 0 afterwards. -/
def rngOf (l : List Nat) : Rng := fun n => l.getD n 0

/-- Models the rand crate call gen_range(lo..hi) on one raw draw: a value in [lo, hi). -/
def genRange (lo hi r : Nat) : Nat := lo + r % (hi - lo)

/-- ASCII lowercasing, modelling str::to_lowercase on the tokens this
program handles. -/
def lowerStr (s : String) : String := String.mk (s.data.map Char.toLower)

/-- i32 wrap-around (2147483648 = 2^31, 4294967296 = 2^32). -/
def wrap32 (n : Int) : Int := (n + 2147483648) % 4294967296 - 2147483648

/-- usize subtraction a - b as compiled without overflow checks: wrap modulo
2^64 (18446744073709551616); both arguments here are palette indices < 7. -/
def wrapSub (a b : Nat) : Nat := (a + 18446744073709551616 - b) % 18446744073709551616

/-- usize subtraction a - b under debug overflow checks: underflow is a
panic, modelled as none. -/
def checkedSub (a b : Nat) : Option Nat := if b ≤ a then some (a - b) else none

/-- Enum DifferentValues from the source. -/
inductive DifferentValues where
  | FirstGeneratedVal
  | SecondGeneratedVal

/-- Struct PlainGuppies: the original higher/lower variant. -/
structure PlainGuppies where
  value_one : Nat
  value_two : Nat
  deriving DecidableEq

/-- Struct OddOrEvenGuppies: the parity variant. -/
structure OddOrEvenGuppies where
  num_one : Nat
  num_two : Nat
  deriving DecidableEq

/-- Struct RainbowGuppies: the color variant. -/
structure RainbowGuppies where
  color_one : String
  color_two : String
  deriving DecidableEq

/-- Fixed palette used by RainbowGuppies (both in generate_new_random and in
check_guess). -/
def colors : List String := ["Violet", "Indigo", "Blue", "Green", "Yellow", "Orange", "Red"]

/-- PlainGuppies::generate_new_random: two fresh draws from 1..=10 overwrite
BOTH stored values. -/
def PlainGuppies.generate_new_random (_s : PlainGuppies) (r1 r2 : Nat) : PlainGuppies :=
  ⟨genRange 1 11 r1, genRange 1 11 r2⟩

/-- OddOrEvenGuppies::generate_new_random: two fresh draws from 1..=100
overwrite BOTH stored values. -/
def OddOrEvenGuppies.generate_new_random (_s : OddOrEvenGuppies) (r1 r2 : Nat) : OddOrEvenGuppies :=
  ⟨genRange 1 101 r1, genRange 1 101 r2⟩

/-- RainbowGuppies::generate_new_random: ONE draw indexes the palette and
both stored colors are assigned from that same index. -/
def RainbowGuppies.generate_new_random (_s : RainbowGuppies) (r : Nat) : RainbowGuppies :=
  ⟨colors.getD (genRange 0 colors.length r) "", colors.getD (genRange 0 colors.length r) ""⟩

/-- PlainGuppies::tell_random: the line printed for the requested value. -/
def PlainGuppies.tell_random (s : PlainGuppies) : DifferentValues → String
  | .FirstGeneratedVal => "This is the first value " ++ toString s.value_one
  | .SecondGeneratedVal => "This is the second value " ++ toString s.value_two

/-- OddOrEvenGuppies::tell_random. -/
def OddOrEvenGuppies.tell_random (s : OddOrEvenGuppies) : DifferentValues → String
  | .FirstGeneratedVal => "This is the first number " ++ toString s.num_one
  | .SecondGeneratedVal => "This is the second number " ++ toString s.num_two

/-- RainbowGuppies::tell_random. -/
def RainbowGuppies.tell_random (s : RainbowGuppies) : DifferentValues → String
  | .FirstGeneratedVal => "This is first color " ++ s.color_one
  | .SecondGeneratedVal => "This is second color " ++ s.color_two

/-- PlainGuppies::check_guess; the catch-all arm panics (none). -/
def PlainGuppies.check_guess (s : PlainGuppies) (guess : String) : Option Bool :=
  let g := lowerStr guess
  if g = "h" then some (decide (s.value_two > s.value_one))
  else if g = "l" then some (decide (s.value_two < s.value_one))
  else if g = "s" then some (decide (s.value_two = s.value_one))
  else none

/-- OddOrEvenGuppies::check_guess; the catch-all arm panics (none). -/
def OddOrEvenGuppies.check_guess (s : OddOrEvenGuppies) (guess : String) : Option Bool :=
  let g := lowerStr guess
  if g = "o" then some (decide (s.num_two % 2 ≠ 0))
  else if g = "e" then some (decide (s.num_two % 2 = 0))
  else if g = "s" then some (decide (s.num_two = s.num_one))
  else none

/-- RainbowGuppies::check_guess with wrapping (release-build) usize
subtraction.  The three position(..).unwrap() calls run before the guess is
examined, so a stored color absent from the palette panics (none) for every
token; index_one is the index of color_two, index_two of color_one, exactly
as in the source. -/
def RainbowGuppies.check_guess (s : RainbowGuppies) (guess : String) : Option Bool :=
  match colors.findIdx? (fun r => r == s.color_two),
        colors.findIdx? (fun r => r == s.color_one),
        colors.findIdx? (fun r => r == "Green") with
  | some index_one, some index_two, some index_green =>
    let g := lowerStr guess
    if g = "c" then some (decide (wrapSub index_one index_green < wrapSub index_two index_green))
    else if g = "f" then some (decide (wrapSub index_one index_green > wrapSub index_two index_green))
    else if g = "s" then some (decide (s.color_two = s.color_one))
    else none
  | _, _, _ => none

/-- RainbowGuppies::check_guess under debug overflow checks: the usize
subtractions of the c and f arms panic (none) on underflow. -/
def RainbowGuppies.check_guess_dbg (s : RainbowGuppies) (guess : String) : Option Bool :=
  match colors.findIdx? (fun r => r == s.color_two),
        colors.findIdx? (fun r => r == s.color_one),
        colors.findIdx? (fun r => r == "Green") with
  | some index_one, some index_two, some index_green =>
    let g := lowerStr guess
    if g = "c" then
      match checkedSub index_one index_green, checkedSub index_two index_green with
      | some d1, some d2 => some (decide (d1 < d2))
      | _, _ => none
    else if g = "f" then
      match checkedSub index_one index_green, checkedSub index_two index_green with
      | some d1, some d2 => some (decide (d1 > d2))
      | _, _ => none
    else if g = "s" then some (decide (s.color_two = s.color_one))
    else none
  | _, _, _ => none

/-- One basic (non-composite) boxed GuppiesVariant. -/
inductive Basic where
  | plain (s : PlainGuppies)
  | oddOrEven (s : OddOrEvenGuppies)
  | rainbow (s : RainbowGuppies)
  deriving DecidableEq

/-- Dispatch of generate_new_random; Plain and Parity consume two draws,
Spectrum one. -/
def Basic.generate : Basic → Rng → Basic × Rng
  | .plain s, r => (.plain (s.generate_new_random (r 0) (r 1)), r.drop 2)
  | .oddOrEven s, r => (.oddOrEven (s.generate_new_random (r 0) (r 1)), r.drop 2)
  | .rainbow s, r => (.rainbow (s.generate_new_random (r 0)), r.drop 1)

/-- Dispatch of tell_random. -/
def Basic.tell_random : Basic → DifferentValues → String
  | .plain s, v => s.tell_random v
  | .oddOrEven s, v => s.tell_random v
  | .rainbow s, v => s.tell_random v

/-- Dispatch of check_guess (wrapping model). -/
def Basic.check_guess : Basic → String → Option Bool
  | .plain s, g => s.check_guess g
  | .oddOrEven s, g => s.check_guess g
  | .rainbow s, g => s.check_guess g

/-- Tokens the get_guess retry loop of each variant accepts (quit included). -/
def Basic.validTokens : Basic → List String
  | .plain _ => ["h", "l", "s", "q"]
  | .oddOrEven _ => ["o", "e", "s", "q"]
  | .rainbow _ => ["c", "f", "s", "q"]

/-- A boxed dyn GuppiesVariant as run_game receives it: one of the three
basic variants, or Manyguppies holding its vector guppies_variants and its
current_variant.  In main the vector is always the three basic variants
(never another Manyguppies), which this shape records. -/
inductive Variant where
  | basic (b : Basic)
  | many (guppies_variants : List Basic) (current_variant : Basic)
  deriving DecidableEq

/-- GuppiesVariant::generate_new_random.  Manyguppies draws a fresh index
into its vector, installs that member as current_variant, then generates on
it (the member states in the vector stay stale, which is invisible because
generate overwrites every field).  gen_range on an empty vector would panic;
this program only ever builds a three-element vector, and the getD default
is never reached since the drawn index is below the length. -/
def Variant.generate : Variant → Rng → Variant × Rng
  | .basic b, r => (.basic (Basic.generate b r).1, (Basic.generate b r).2)
  | .many vs cur, r =>
      (.many vs (Basic.generate (vs.getD (genRange 0 vs.length (Rng.head r)) cur) (Rng.drop r 1)).1,
       (Basic.generate (vs.getD (genRange 0 vs.length (Rng.head r)) cur) (Rng.drop r 1)).2)

/-- GuppiesVariant::tell_random; Manyguppies forwards to current_variant. -/
def Variant.tell_random : Variant → DifferentValues → String
  | .basic b, v => b.tell_random v
  | .many _ cur, v => cur.tell_random v

/-- GuppiesVariant::check_guess; Manyguppies forwards to current_variant. -/
def Variant.check_guess : Variant → String → Option Bool
  | .basic b, g => b.check_guess g
  | .many _ cur, g => cur.check_guess g

/-- Accepted tokens of the active variant; Manyguppies forwards to
current_variant. -/
def Variant.validTokens : Variant → List String
  | .basic b => b.validTokens
  | .many _ cur => cur.validTokens

/-- Currency choices of main. -/
inductive Currency where
  | dollar
  | turkishLira
  | hbuck

/-- Currency::starting_amount. -/
def Currency.starting_amount : Currency → Int
  | .dollar => 100
  | .turkishLira => 100000000
  | .hbuck => 32199

/-- Bet-reading retry loop of run_game: read proposals until 0 ≤ bet ≤ money
(the source rejects while bet < 0 or bet > money); none when the proposal
list runs out. -/
def readBet (money : Int) : List Int → Option (Int × List Int)
  | [] => none
  | bet :: rest =>
      if bet < 0 ∨ bet > money then readBet money rest
      else some (bet, rest)

/-- Guess retry loop (the get_guess methods): lowercase each proposal and
retry until it lies in the accepted token list. -/
def get_guess (valid : List String) : List String → Option (String × List String)
  | [] => none
  | g :: rest =>
      if lowerStr g ∈ valid then some (lowerStr g, rest)
      else get_guess valid rest

/-- Settlement of one round: the i32 update money += bet or money -= bet,
with wrap-around. -/
def settle (money bet : Int) (result : Bool) : Int :=
  if result then wrap32 (money + bet) else wrap32 (money - bet)

/-- How a run of the betting loop ends.  finishedBroke: the while condition
money > 0 failed; finishedQuit: break on the quit token; crashed: a panic
inside check_guess; stuck: fuel or an input list ran out (an artifact of the
finite embedding, the real program would keep prompting). -/
inductive GameResult where
  | finishedBroke (money : Int)
  | finishedQuit (money : Int)
  | crashed
  | stuck
  deriving DecidableEq

/-- The while loop of run_game, fuel-indexed: print balance, read a bet,
generate (overwriting both stored values), reveal FIRST, solicit a guess,
break on quit, generate AGAIN, reveal SECOND, score, settle. -/
def loop : Nat → Variant → Int → Rng → List Int → List String → GameResult
  | 0, _, _, _, _, _ => .stuck
  | fuel + 1, variant, money, rng, bets, guesses =>
      if money > 0 then
        match readBet money bets with
        | none => .stuck
        | some (bet, bets1) =>
          match get_guess (Variant.generate variant rng).1.validTokens guesses with
          | none => .stuck
          | some (guess, guesses1) =>
            if guess = "q" then .finishedQuit money
            else
              match (Variant.generate (Variant.generate variant rng).1
                      (Variant.generate variant rng).2).1.check_guess guess with
              | none => .crashed
              | some result =>
                  loop fuel
                    (Variant.generate (Variant.generate variant rng).1
                      (Variant.generate variant rng).2).1
                    (settle money bet result)
                    (Variant.generate (Variant.generate variant rng).1
                      (Variant.generate variant rng).2).2
                    bets1 guesses1
      else .finishedBroke money

/-- Final report of run_game: the broke line when money == 0, the
cashed-out lines otherwise. -/
def finalMessage (money : Int) : String :=
  if money = 0 then "You\x27re broke. :-/" else "You made it out!"

/-- run_game: start the loop from the starting amount of the currency. -/
def run_game (currency : Currency) (variant : Variant) (fuel : Nat) (rng : Rng)
    (bets : List Int) (guesses : List String) : GameResult :=
  loop fuel variant currency.starting_amount rng bets guesses

/-- Boxed PlainGuppies built in main (value_one 1, value_two 2). -/
def plainInit : PlainGuppies := ⟨1, 2⟩

/-- Boxed RainbowGuppies built in main for the Manyguppies vector. -/
def rainbowInit : RainbowGuppies := ⟨"Red", "Blue"⟩

/-- Boxed OddOrEvenGuppies built in main. -/
def oddInit : OddOrEvenGuppies := ⟨0, 0⟩

/-- Vector many_var of main: the three basic variants, never a composite. -/
def many_var : List Basic := [.plain plainInit, .rainbow rainbowInit, .oddOrEven oddInit]

/-- Manyguppies as wired in main: current_var starts as many_var[0]. -/
def manyInit : Variant := .many many_var (.plain plainInit)

/-- C1: the claim says the second generate call of a round preserves the
already-revealed first value.  It does not: generate_new_random overwrites
BOTH stored values.  In a Plain round whose first generate draws (8, 0),
giving stored values (9, 1), the player is shown 9; after the guess h the
second generate draws (2, 4), giving (3, 5), and check_guess settles h as
5 > 3 = true even though the second value 5 is lower than the revealed 9. -/
theorem c1_revealed_first_value_overwritten :
    (plainInit.generate_new_random 8 0).tell_random .FirstGeneratedVal
      = "This is the first value 9"
    ∧ ((plainInit.generate_new_random 8 0).generate_new_random 2 4).check_guess "h"
      = some true
    ∧ ((plainInit.generate_new_random 8 0).generate_new_random 2 4).value_two
      < (plainInit.generate_new_random 8 0).value_one := by
  decide

/-- C2: the Spectrum state (Violet, Violet) is reachable (any generate draw
r with r % 7 = 0 produces it), the token c is in the accepted set of the
Spectrum variant, and on that state the c arm computes the usize
subtraction 0 - 3: under overflow checks (the default debug build) this is
a panic, so score is not failure-free on the accepted token set; a release
build wraps instead and returns false. -/
theorem c2_spectrum_score_panics :
    rainbowInit.generate_new_random 0 = ⟨"Violet", "Violet"⟩
    ∧ "c" ∈ (Basic.rainbow ⟨"Violet", "Violet"⟩).validTokens
    ∧ RainbowGuppies.check_guess_dbg ⟨"Violet", "Violet"⟩ "c" = none
    ∧ RainbowGuppies.check_guess ⟨"Violet", "Violet"⟩ "c" = some false := by
  decide

/-- C3: the claim predicts score of c is true at first Red, second Blue
because the palette distance of Blue from Green (1) is below that of Red
(3).  The code instead compares raw usize differences: index(Blue) -
index(Green) = 2 - 3 underflows, wrapping to 2^64 - 1 in a release build,
so the comparison yields false there; under overflow checks it panics.  The
absolute-distance reading is never computed. -/
theorem c3_spectrum_distance_flipped :
    RainbowGuppies.check_guess ⟨"Red", "Blue"⟩ "c" = some false
    ∧ RainbowGuppies.check_guess_dbg ⟨"Red", "Blue"⟩ "c" = none := by
  decide

/-- C4 counterexample: with the main wiring of Manyguppies, the rng draw
sequence 0,0,0,1,0 makes the first generate of the round install the Plain
delegate (so the guess h is solicited and accepted), while the second
generate call of run_game re-picks and installs the Spectrum delegate; the
score call is then handled by a different sub-variant than the solicit, one
that rejects the already-validated token h (none = panic).  This refutes
the claim that the delegate chosen at the start of the round handles every
forwarded call for the remainder of the round. -/
theorem c4_delegate_switch_counterexample :
    (manyInit.generate (rngOf [0, 0, 0, 1, 0])).1
      = .many many_var (.plain ⟨1, 1⟩)
    ∧ "h" ∈ (manyInit.generate (rngOf [0, 0, 0, 1, 0])).1.validTokens
    ∧ ((manyInit.generate (rngOf [0, 0, 0, 1, 0])).1.generate
        (manyInit.generate (rngOf [0, 0, 0, 1, 0])).2).1
      = .many many_var (.rainbow ⟨"Violet", "Violet"⟩)
    ∧ ((manyInit.generate (rngOf [0, 0, 0, 1, 0])).1.generate
        (manyInit.generate (rngOf [0, 0, 0, 1, 0])).2).1.check_guess "h" = none := by
  decide

/-- C5 counterexample: starting from the Turkish Lira amount 100000000 and
winning five all-in bets in a row (each round: bet everything, first
generate gives (1, 1), guess h, second generate gives (1, 2), so 2 > 1
wins), the i32 update money + bet passes i32::MAX on the fifth win and
wraps: the loop then stops with the negative balance -1094967296.  This
refutes the claim that the balance can never go below 0. -/
theorem c5_balance_overflow_counterexample :
    run_game .turkishLira (.basic (.plain plainInit)) 6
      (fun n => [0, 0, 0, 1].getD (n % 4) 0)
      [100000000, 200000000, 400000000, 800000000, 1600000000]
      ["h", "h", "h", "h", "h"]
      = .finishedBroke (-1094967296)
    ∧ (-1094967296 : Int) < 0 := by
  decide

/-- C7 counterexample: with the Composite variant the loop can stop in a
way that is neither going broke nor quitting: the delegate switch of the
second generate call hands the validated token h to the Spectrum delegate,
whose check_guess panics, aborting the program mid-round. -/
theorem c7_composite_crash_counterexample :
    loop 2 manyInit 100 (rngOf [0, 0, 0, 1, 0]) [10] ["h"] = .crashed := by
  decide

/-- C10: every Spectrum generate draws one palette index and stores that
color twice, so first and second are equal and the same guess s then scores
true. -/
theorem c10_rainbow_same_after_generate (s : RainbowGuppies) (r : Nat) :
    (s.generate_new_random r).color_one = (s.generate_new_random r).color_two
    ∧ (s.generate_new_random r).check_guess "s" = some true := by
  constructor
  · rfl
  · have h7 : genRange 0 colors.length r < 7 := by
      simp only [genRange, colors, List.length_cons, List.length_nil]
      omega
    simp only [RainbowGuppies.generate_new_random, RainbowGuppies.check_guess]
    generalize genRange 0 colors.length r = i at h7
    interval_cases i <;> decide

/-- wrap32 is the identity on the i32 range. -/
theorem wrap32_eq_self (n : Int) (h1 : -2147483648 ≤ n) (h2 : n ≤ 2147483647) :
    wrap32 n = n := by
  unfold wrap32
  omega

/-- C5 amended: a settled round keeps the balance nonnegative provided the
accepted bet satisfied the clamp 0 ≤ bet ≤ money and the winning update
money + bet stays within i32 range; the clamp alone makes losing rounds
safe (money - bet is between 0 and money), and only i32 overflow on a win
can break the invariant, as the counterexample shows. -/
theorem c5_settle_nonneg (money bet : Int) (result : Bool)
    (h0 : 0 ≤ bet) (h1 : bet ≤ money) (h2 : money + bet ≤ 2147483647) :
    0 ≤ settle money bet result := by
  cases result with
  | true =>
      have h := wrap32_eq_self (money + bet) (by omega) h2
      rw [show settle money bet true = wrap32 (money + bet) from rfl]
      omega
  | false =>
      have h := wrap32_eq_self (money - bet) (by omega) (by omega)
      rw [show settle money bet false = wrap32 (money - bet) from rfl]
      omega

theorem c5_settle_nonneg_witness : 0 ≤ settle 100 50 true ∧ 0 ≤ settle 100 100 false :=
  ⟨c5_settle_nonneg 100 50 true (by decide) (by decide) (by decide),
   c5_settle_nonneg 100 100 false (by decide) (by decide) (by decide)⟩

/-- Unfolding equation for one iteration of the betting loop. -/
theorem loop_succ (fuel : Nat) (variant : Variant) (money : Int) (rng : Rng)
    (bets : List Int) (guesses : List String) :
    loop (fuel + 1) variant money rng bets guesses =
      if money > 0 then
        match readBet money bets with
        | none => .stuck
        | some (bet, bets1) =>
          match get_guess (Variant.generate variant rng).1.validTokens guesses with
          | none => .stuck
          | some (guess, guesses1) =>
            if guess = "q" then .finishedQuit money
            else
              match (Variant.generate (Variant.generate variant rng).1
                      (Variant.generate variant rng).2).1.check_guess guess with
              | none => .crashed
              | some result =>
                  loop fuel
                    (Variant.generate (Variant.generate variant rng).1
                      (Variant.generate variant rng).2).1
                    (settle money bet result)
                    (Variant.generate (Variant.generate variant rng).1
                      (Variant.generate variant rng).2).2
                    bets1 guesses1
      else .finishedBroke money := rfl

/-- Unfolding equation for one step of the bet retry loop. -/
theorem readBet_cons (money a : Int) (t : List Int) :
    readBet money (a :: t) = if a < 0 ∨ a > money then readBet money t else some (a, t) := rfl

/-- The bet retry loop consumes at least one proposal before accepting. -/
theorem readBet_length (money : Int) :
    ∀ (l : List Int) (b : Int) (l2 : List Int),
      readBet money l = some (b, l2) → l2.length < l.length := by
  intro l
  induction l with
  | nil => intro b l2 h; exact Option.noConfusion h
  | cons a t ih =>
      intro b l2 h
      rw [readBet_cons] at h
      by_cases hc : a < 0 ∨ a > money
      · rw [if_pos hc] at h
        have := ih b l2 h
        simp only [List.length_cons]
        omega
      · rw [if_neg hc] at h
        obtain ⟨rfl, rfl⟩ := Prod.mk.injEq .. ▸ Option.some.inj h
        simp only [List.length_cons]
        omega

/-- C6: the bet loop accepts the proposal X against balance B exactly when
0 ≤ X ≤ B; any other X is rejected and the loop just moves to the next
proposal, and a rejected proposal changes nothing: the whole game run
continues exactly as if the rejected proposal had never been offered, so
neither the balance nor the stored round values are touched. -/
theorem c6_bet_acceptance (money x : Int) (rest : List Int) :
    (readBet money (x :: rest) = some (x, rest) ↔ 0 ≤ x ∧ x ≤ money)
    ∧ (¬(0 ≤ x ∧ x ≤ money) →
        readBet money (x :: rest) = readBet money rest
        ∧ ∀ (fuel : Nat) (v : Variant) (rng : Rng) (guesses : List String),
            loop fuel v money rng (x :: rest) guesses
              = loop fuel v money rng rest guesses) := by
  have hre : ¬(0 ≤ x ∧ x ≤ money) → readBet money (x :: rest) = readBet money rest := by
    intro hnv
    rw [readBet_cons, if_pos (by omega)]
  constructor
  · constructor
    · intro he
      by_cases hv : 0 ≤ x ∧ x ≤ money
      · exact hv
      · exfalso
        rw [hre hv] at he
        have := readBet_length money rest x rest he
        omega
    · intro hv
      rw [readBet_cons, if_neg (by omega)]
  · intro hnv
    refine ⟨hre hnv, ?_⟩
    intro fuel v rng guesses
    cases fuel with
    | zero => rfl
    | succ n => rw [loop_succ, loop_succ, hre hnv]

/-- Witness for C6, following Scenario 6 of the spec: against balance 100
the proposals -5 and 150 are rejected without effect and 40 is accepted. -/
theorem c6_bet_acceptance_witness :
    readBet 100 [-5, 150, 40] = readBet 100 [150, 40]
    ∧ readBet 100 [(150 : Int), 40] = readBet 100 [40]
    ∧ readBet 100 [(40 : Int)] = some (40, []) := by
  refine ⟨((c6_bet_acceptance 100 (-5) [150, 40]).2 (by decide)).1,
          ((c6_bet_acceptance 100 150 [40]).2 (by decide)).1,
          (c6_bet_acceptance 100 40 []).1.mpr (by decide)⟩

/-- C8: if the guess retry loop returns the quit token while the balance is
positive, the round stops at once as finishedQuit with the balance
untouched — the quit branch breaks before the second generate and before
check_guess is ever consulted, for every variant — and the final report is
the cashed-out message, not the broke one. -/
theorem c8_quit_cashes_out (fuel : Nat) (v : Variant) (money : Int) (rng : Rng)
    (bets : List Int) (guesses : List String) (bet : Int) (bets1 : List Int)
    (guesses1 : List String)
    (hm : 0 < money)
    (hb : readBet money bets = some (bet, bets1))
    (hg : get_guess (Variant.generate v rng).1.validTokens guesses = some ("q", guesses1)) :
    loop (fuel + 1) v money rng bets guesses = .finishedQuit money
    ∧ finalMessage money = "You made it out!" := by
  constructor
  · rw [loop_succ, if_pos hm, hb, hg]
    exact rfl
  · unfold finalMessage
    rw [if_neg (by omega)]

/-- Witness for C8, following Scenario 3 of the spec: balance 100, the
player quits at the guess prompt, the loop ends with balance 100 and the
cashed-out message. -/
theorem c8_quit_cashes_out_witness :
    loop 1 (.basic (.plain plainInit)) 100 (rngOf []) [10] ["q"] = .finishedQuit 100
    ∧ finalMessage 100 = "You made it out!" :=
  c8_quit_cashes_out 0 (.basic (.plain plainInit)) 100 (rngOf []) [10] ["q"] 10 [] []
    (by decide) (by decide) (by decide)

/-- C9: for each variant the s guess scores true exactly when the stored
first and second values are equal — numeric equality for Plain and Parity,
color-name equality for Spectrum.  The Spectrum part assumes both stored
colors lie in the palette, which holds for every state score can see (all
generated states and the initial states built in main), since the index
lookups that precede the guess match would otherwise panic. -/
theorem c9_same_iff_equal (p : PlainGuppies) (o : OddOrEvenGuppies) (r : RainbowGuppies)
    (h1 : r.color_one ∈ colors) (h2 : r.color_two ∈ colors) :
    (p.check_guess "s" = some true ↔ p.value_one = p.value_two)
    ∧ (o.check_guess "s" = some true ↔ o.num_one = o.num_two)
    ∧ (r.check_guess "s" = some true ↔ r.color_one = r.color_two) := by
  obtain ⟨c1, c2⟩ := r
  refine ⟨?_, ?_, ?_⟩
  · rw [show p.check_guess "s" = some (decide (p.value_two = p.value_one)) from rfl]
    simp [decide_eq_true_iff, eq_comm]
  · rw [show o.check_guess "s" = some (decide (o.num_two = o.num_one)) from rfl]
    simp [decide_eq_true_iff, eq_comm]
  · simp only [colors, List.mem_cons, List.not_mem_nil, or_false] at h1 h2
    rcases h1 with h | h | h | h | h | h | h <;> subst h <;>
      (rcases h2 with h | h | h | h | h | h | h <;> subst h <;> decide)

/-- Witness for C9 at a concrete state of each variant. -/
theorem c9_same_iff_equal_witness :
    PlainGuppies.check_guess ⟨3, 3⟩ "s" = some true
    ∧ OddOrEvenGuppies.check_guess ⟨2, 5⟩ "s" ≠ some true
    ∧ RainbowGuppies.check_guess ⟨"Red", "Red"⟩ "s" = some true := by
  have h := c9_same_iff_equal ⟨3, 3⟩ ⟨2, 5⟩ ⟨"Red", "Red"⟩ (by decide) (by decide)
  exact ⟨h.1.mpr rfl, fun hc => absurd (h.2.1.mp hc) (by decide), h.2.2.mpr rfl⟩

/-- C4 amended: every Manyguppies generate call picks the delegate for the
forwarded calls that FOLLOW it: the new current_variant is the generate of
the vector member at index draw % length (an element of the vector — in the
main wiring one of the three basic sub-variants, never the composite
itself), and check_guess, tell_random and the accepted token set are
forwarded to exactly that delegate until the next generate.  Because
run_game calls generate twice per round, the first reveal and the guess may
be served by a different sub-variant than the second reveal and the score,
as the counterexample shows. -/
theorem c4_many_delegation (vs : List Basic) (cur : Basic) (rng : Rng) (h : vs ≠ []) :
    ∃ i : Nat, ∃ hi : i < vs.length,
      Variant.generate (.many vs cur) rng
        = (.many vs (Basic.generate (vs.get ⟨i, hi⟩) (Rng.drop rng 1)).1,
           (Basic.generate (vs.get ⟨i, hi⟩) (Rng.drop rng 1)).2)
      ∧ (∀ g, Variant.check_guess (.many vs (Basic.generate (vs.get ⟨i, hi⟩) (Rng.drop rng 1)).1) g
            = Basic.check_guess (Basic.generate (vs.get ⟨i, hi⟩) (Rng.drop rng 1)).1 g)
      ∧ (∀ w, Variant.tell_random (.many vs (Basic.generate (vs.get ⟨i, hi⟩) (Rng.drop rng 1)).1) w
            = Basic.tell_random (Basic.generate (vs.get ⟨i, hi⟩) (Rng.drop rng 1)).1 w)
      ∧ Variant.validTokens (.many vs (Basic.generate (vs.get ⟨i, hi⟩) (Rng.drop rng 1)).1)
          = Basic.validTokens (Basic.generate (vs.get ⟨i, hi⟩) (Rng.drop rng 1)).1 := by
  have hlen : 0 < vs.length := List.length_pos.mpr h
  have hi : Rng.head rng % vs.length < vs.length := Nat.mod_lt _ hlen
  refine ⟨Rng.head rng % vs.length, hi, ?_, fun g => rfl, fun w => rfl, rfl⟩
  have hg : genRange 0 vs.length (Rng.head rng) = Rng.head rng % vs.length := by
    simp [genRange]
  rw [show Variant.generate (.many vs cur) rng
      = (.many vs (Basic.generate (vs.getD (genRange 0 vs.length (Rng.head rng)) cur)
            (Rng.drop rng 1)).1,
         (Basic.generate (vs.getD (genRange 0 vs.length (Rng.head rng)) cur)
            (Rng.drop rng 1)).2) from rfl,
      hg, List.getD_eq_getElem vs cur hi]
  rw [List.get_eq_getElem]

/-- Witness for C4 at the main wiring with the draw 1, picking the second
vector member. -/
theorem c4_many_delegation_witness :
    ∃ i : Nat, ∃ hi : i < many_var.length,
      Variant.generate (.many many_var (.plain plainInit)) (rngOf [1])
        = (.many many_var (Basic.generate (many_var.get ⟨i, hi⟩) (Rng.drop (rngOf [1]) 1)).1,
           (Basic.generate (many_var.get ⟨i, hi⟩) (Rng.drop (rngOf [1]) 1)).2)
      ∧ (∀ g, Variant.check_guess
            (.many many_var (Basic.generate (many_var.get ⟨i, hi⟩) (Rng.drop (rngOf [1]) 1)).1) g
            = Basic.check_guess (Basic.generate (many_var.get ⟨i, hi⟩) (Rng.drop (rngOf [1]) 1)).1 g)
      ∧ (∀ w, Variant.tell_random
            (.many many_var (Basic.generate (many_var.get ⟨i, hi⟩) (Rng.drop (rngOf [1]) 1)).1) w
            = Basic.tell_random (Basic.generate (many_var.get ⟨i, hi⟩) (Rng.drop (rngOf [1]) 1)).1 w)
      ∧ Variant.validTokens
            (.many many_var (Basic.generate (many_var.get ⟨i, hi⟩) (Rng.drop (rngOf [1]) 1)).1)
          = Basic.validTokens (Basic.generate (many_var.get ⟨i, hi⟩) (Rng.drop (rngOf [1]) 1)).1 :=
  c4_many_delegation many_var (.plain plainInit) (rngOf [1]) (by decide)

/-- Unfolding equation for one step of the guess retry loop. -/
theorem get_guess_cons (valid : List String) (a : String) (t : List String) :
    get_guess valid (a :: t)
      = if lowerStr a ∈ valid then some (lowerStr a, t) else get_guess valid t := rfl

/-- The guess retry loop only returns members of the accepted token list. -/
theorem get_guess_mem (valid : List String) :
    ∀ (gs : List String) (g : String) (rest : List String),
      get_guess valid gs = some (g, rest) → g ∈ valid := by
  intro gs
  induction gs with
  | nil => intro g rest h; exact Option.noConfusion h
  | cons a t ih =>
      intro g rest h
      rw [get_guess_cons] at h
      by_cases hc : lowerStr a ∈ valid
      · rw [if_pos hc] at h
        obtain ⟨rfl, rfl⟩ := Prod.mk.injEq .. ▸ Option.some.inj h
        exact hc
      · rw [if_neg hc] at h
        exact ih g rest h

/-- Generate keeps the variant kind, hence the accepted token set. -/
theorem generate_validTokens (b : Basic) (r : Rng) :
    (Basic.generate b r).1.validTokens = b.validTokens := by
  cases b <;> rfl

/-- On any generated Spectrum state the wrapping check_guess answers every
non-quit Spectrum token: both stored colors are the same palette member, so
the index lookups succeed and the wrapped subtractions are defined. -/
theorem rainbow_generated_check_some (s : RainbowGuppies) (r : Nat) (g : String)
    (hg : g = "c" ∨ g = "f" ∨ g = "s") :
    ((s.generate_new_random r).check_guess g).isSome = true := by
  have h7 : genRange 0 colors.length r < 7 := by
    simp only [genRange, colors, List.length_cons, List.length_nil]
    omega
  simp only [RainbowGuppies.generate_new_random]
  rcases hg with h | h | h <;> subst h <;>
    · generalize genRange 0 colors.length r = i at h7
      interval_cases i <;> decide

/-- After a generate, check_guess answers every accepted non-quit token of
the variant (wrapping build). -/
theorem generated_check_some (b : Basic) (r : Rng) (g : String)
    (hmem : g ∈ (Basic.generate b r).1.validTokens) (hq : ¬ g = "q") :
    ((Basic.generate b r).1.check_guess g).isSome = true := by
  rw [generate_validTokens] at hmem
  cases b with
  | plain s =>
      simp only [Basic.validTokens, List.mem_cons, List.not_mem_nil, or_false] at hmem
      rcases hmem with h | h | h | h
      · subst h; exact rfl
      · subst h; exact rfl
      · subst h; exact rfl
      · exact absurd h hq
  | oddOrEven s =>
      simp only [Basic.validTokens, List.mem_cons, List.not_mem_nil, or_false] at hmem
      rcases hmem with h | h | h | h
      · subst h; exact rfl
      · subst h; exact rfl
      · subst h; exact rfl
      · exact absurd h hq
  | rainbow s =>
      simp only [Basic.validTokens, List.mem_cons, List.not_mem_nil, or_false] at hmem
      rcases hmem with h | h | h | h
      · subst h; exact rainbow_generated_check_some s (r 0) "c" (Or.inl rfl)
      · subst h; exact rainbow_generated_check_some s (r 0) "f" (Or.inr (Or.inl rfl))
      · subst h; exact rainbow_generated_check_some s (r 0) "s" (Or.inr (Or.inr rfl))
      · exact absurd h hq

/-- Generate on a basic boxed variant stays basic. -/
theorem variant_generate_basic (b : Basic) (r : Rng) :
    Variant.generate (.basic b) r = (.basic (Basic.generate b r).1, (Basic.generate b r).2) := rfl

/-- finishedBroke only arises from the while condition money > 0 failing,
so it always carries a nonpositive balance (any variant). -/
theorem loop_finishedBroke_le :
    ∀ (fuel : Nat) (v : Variant) (money : Int) (rng : Rng) (bets : List Int)
      (guesses : List String) (m : Int),
      loop fuel v money rng bets guesses = .finishedBroke m → m ≤ 0 := by
  intro fuel
  induction fuel with
  | zero => intro v money rng bets guesses m h; exact GameResult.noConfusion h
  | succ n ih =>
      intro v money rng bets guesses m h
      rw [loop_succ] at h
      by_cases hm : money > 0
      · rw [if_pos hm] at h
        cases hrb : readBet money bets with
        | none => rw [hrb] at h; exact GameResult.noConfusion h
        | some p =>
            obtain ⟨bet, bets1⟩ := p
            simp only [hrb] at h
            cases hsg : get_guess (Variant.generate v rng).1.validTokens guesses with
            | none => simp only [hsg] at h; exact GameResult.noConfusion h
            | some q =>
                obtain ⟨guess, guesses1⟩ := q
                simp only [hsg] at h
                by_cases hqt : guess = "q"
                · rw [if_pos hqt] at h; exact GameResult.noConfusion h
                · rw [if_neg hqt] at h
                  cases hck : (Variant.generate (Variant.generate v rng).1
                      (Variant.generate v rng).2).1.check_guess guess with
                  | none => simp only [hck] at h; exact GameResult.noConfusion h
                  | some result =>
                      simp only [hck] at h
                      exact ih _ _ _ _ _ m h
      · rw [if_neg hm] at h
        obtain rfl : money = m := GameResult.finishedBroke.inj h
        omega

/-- finishedQuit only arises inside the loop body, so the while condition
held and the carried balance is positive (any variant). -/
theorem loop_finishedQuit_pos :
    ∀ (fuel : Nat) (v : Variant) (money : Int) (rng : Rng) (bets : List Int)
      (guesses : List String) (m : Int),
      loop fuel v money rng bets guesses = .finishedQuit m → 0 < m := by
  intro fuel
  induction fuel with
  | zero => intro v money rng bets guesses m h; exact GameResult.noConfusion h
  | succ n ih =>
      intro v money rng bets guesses m h
      rw [loop_succ] at h
      by_cases hm : money > 0
      · rw [if_pos hm] at h
        cases hrb : readBet money bets with
        | none => rw [hrb] at h; exact GameResult.noConfusion h
        | some p =>
            obtain ⟨bet, bets1⟩ := p
            simp only [hrb] at h
            cases hsg : get_guess (Variant.generate v rng).1.validTokens guesses with
            | none => simp only [hsg] at h; exact GameResult.noConfusion h
            | some q =>
                obtain ⟨guess, guesses1⟩ := q
                simp only [hsg] at h
                by_cases hqt : guess = "q"
                · rw [if_pos hqt] at h
                  obtain rfl : money = m := GameResult.finishedQuit.inj h
                  omega
                · rw [if_neg hqt] at h
                  cases hck : (Variant.generate (Variant.generate v rng).1
                      (Variant.generate v rng).2).1.check_guess guess with
                  | none => simp only [hck] at h; exact GameResult.noConfusion h
                  | some result =>
                      simp only [hck] at h
                      exact ih _ _ _ _ _ m h
      · rw [if_neg hm] at h
        exact GameResult.noConfusion h

/-- With a basic (non-composite) variant the loop never crashes: the token
the guess loop validated is still an accepted token of the variant that
scores it, because generate keeps the variant kind. -/
theorem loop_basic_no_crash :
    ∀ (fuel : Nat) (b : Basic) (money : Int) (rng : Rng) (bets : List Int)
      (guesses : List String),
      loop fuel (.basic b) money rng bets guesses ≠ .crashed := by
  intro fuel
  induction fuel with
  | zero => intro b money rng bets guesses h; exact GameResult.noConfusion h
  | succ n ih =>
      intro b money rng bets guesses h
      rw [loop_succ] at h
      by_cases hm : money > 0
      · rw [if_pos hm] at h
        cases hrb : readBet money bets with
        | none => rw [hrb] at h; exact GameResult.noConfusion h
        | some p =>
            obtain ⟨bet, bets1⟩ := p
            simp only [hrb] at h
            cases hsg : get_guess (Variant.generate (.basic b) rng).1.validTokens guesses with
            | none => simp only [hsg] at h; exact GameResult.noConfusion h
            | some q =>
                obtain ⟨guess, guesses1⟩ := q
                simp only [hsg] at h
                by_cases hqt : guess = "q"
                · rw [if_pos hqt] at h; exact GameResult.noConfusion h
                · rw [if_neg hqt] at h
                  have hmem : guess ∈ (Basic.generate b rng).1.validTokens :=
                    get_guess_mem _ guesses guess guesses1 hsg
                  have hmem2 : guess ∈ (Basic.generate (Basic.generate b rng).1
                      (Basic.generate b rng).2).1.validTokens := by
                    rw [generate_validTokens]
                    exact hmem
                  have hsome := generated_check_some (Basic.generate b rng).1
                    (Basic.generate b rng).2 guess hmem2 hqt
                  cases hck : (Basic.generate (Basic.generate b rng).1
                      (Basic.generate b rng).2).1.check_guess guess with
                  | none => rw [hck] at hsome; exact Bool.noConfusion hsome
                  | some result =>
                      rw [show (Variant.generate (Variant.generate (.basic b) rng).1
                            (Variant.generate (.basic b) rng).2).1.check_guess guess
                          = (Basic.generate (Basic.generate b rng).1
                            (Basic.generate b rng).2).1.check_guess guess from rfl] at h
                      simp only [hck] at h
                      exact ih (Basic.generate (Basic.generate b rng).1
                        (Basic.generate b rng).2).1 (settle money bet result)
                        (Basic.generate (Basic.generate b rng).1
                          (Basic.generate b rng).2).2 bets1 guesses1 h
      · rw [if_neg hm] at h
        exact GameResult.noConfusion h

/-- C7 amended: for the three basic variants (wrapping build) the loop
stops only by going broke or by quitting: it never crashes, a finishedBroke
exit always carries a balance ≤ 0 (the while condition failed), a
finishedQuit exit always carries a balance > 0, and a nonpositive balance
stops the loop at once.  (The remaining label stuck is the artifact of the
finite fuel and input lists of the embedding: it stands for a run still
waiting for input, not for a stopped loop.)  With the Composite variant the
loop genuinely can stop another way — a panic inside score, see the
counterexample — which is what the original claim misses. -/
theorem c7_terminal_iff (b : Basic) (fuel : Nat) (money : Int) (rng : Rng)
    (bets : List Int) (guesses : List String) :
    (loop fuel (.basic b) money rng bets guesses ≠ .crashed)
    ∧ (∀ m, loop fuel (.basic b) money rng bets guesses = .finishedBroke m → m ≤ 0)
    ∧ (∀ m, loop fuel (.basic b) money rng bets guesses = .finishedQuit m → 0 < m)
    ∧ (money ≤ 0 → loop (fuel + 1) (.basic b) money rng bets guesses = .finishedBroke money) :=
  ⟨loop_basic_no_crash fuel b money rng bets guesses,
   loop_finishedBroke_le fuel (.basic b) money rng bets guesses,
   loop_finishedQuit_pos fuel (.basic b) money rng bets guesses,
   fun hm => by rw [loop_succ, if_neg (by omega)]⟩

/-- Witness for C7: a nonpositive balance is reported broke at once. -/
theorem c7_terminal_iff_witness :
    loop 3 (Variant.basic (.plain plainInit)) (-7) (rngOf []) [] [] = .finishedBroke (-7) :=
  (c7_terminal_iff (.plain plainInit) 2 (-7) (rngOf []) [] []).2.2.2 (by decide)
